import Mathlib

/-!
Verification of the build-helper component of l2tdevtools
(src/l2tdevtools/build_helper.py).

The definitions below are a shallow embedding of the Python source:
pure string manipulation is translated to Lean functions on `String` /
`List Char`, filesystem and subprocess effects are made explicit as
function parameters (existence predicates, exit codes) and explicit
state (current working directory as a list of path segments, the name
of the tracked source package file).
-/

namespace L2TDevTools

/- ## Python string primitives

Python string operations used by build_helper.py, modelled on the
character list underlying a Lean `String`.  Python slicing and
iteration are per code point, which matches `List Char`. -/

/-- Python str.startswith: the first len(p) characters of s equal p. -/
def pyStartsWith (s p : String) : Bool :=
  decide (s.data.take p.data.length = p.data)

/-- Python s[n:]: drop the first n characters. -/
def pyDropChars (s : String) (n : Nat) : String :=
  String.mk (s.data.drop n)

/-- Python str.split(sep) for a single-character separator: auxiliary
walk with an accumulator for the current field (reversed). -/
def pySplitFieldsAux (sep : Char) : List Char → List Char → List (List Char)
  | [], current => [current.reverse]
  | c :: rest, current =>
    if c = sep then current.reverse :: pySplitFieldsAux sep rest []
    else pySplitFieldsAux sep rest (c :: current)

/-- Python str.split(sep) for a single-character separator. -/
def pySplitFields (sep : Char) (s : List Char) : List (List Char) :=
  pySplitFieldsAux sep s []

/-- The head component of Python str.rpartition(sep): everything before
the last occurrence of sep (empty when sep does not occur). -/
def pyRPartitionHead (sep : Char) (s : List Char) : List Char :=
  List.intercalate [sep] ((pySplitFields sep s).dropLast)

/- ## Build helper factory (BuildHelperFactory.NewBuildHelper)

The factory performs a two-level dictionary lookup: first on the
project definition's build_system, then on the requested build target.
The concrete helper classes are modelled as an enumeration. -/

/-- The concrete build helper classes registered in the factory tables. -/
inductive BuildHelperClass where
  | configureMakeDPKG
  | configureMakeSourceDPKG
  | configureMakeMSI
  | configureMakeOSC
  | configureMakePKG
  | configureMakeRPM
  | configureMakeSource
  | configureMakeSRPM
  | setupPyDPKG
  | setupPySourceDPKG
  | setupPyMSI
  | setupPyOSC
  | setupPyPKG
  | setupPyRPM
  | setupPySource
  | setupPySRPM
deriving DecidableEq

/-- _CONFIGURE_MAKE_BUILD_HELPER_CLASSES.get(build_target, None). -/
def configureMakeBuildHelperClassFor (target : String) : Option BuildHelperClass :=
  if target = "dpkg" then some BuildHelperClass.configureMakeDPKG
  else if target = "dpkg-source" then some BuildHelperClass.configureMakeSourceDPKG
  else if target = "msi" then some BuildHelperClass.configureMakeMSI
  else if target = "osc" then some BuildHelperClass.configureMakeOSC
  else if target = "pkg" then some BuildHelperClass.configureMakePKG
  else if target = "rpm" then some BuildHelperClass.configureMakeRPM
  else if target = "source" then some BuildHelperClass.configureMakeSource
  else if target = "srpm" then some BuildHelperClass.configureMakeSRPM
  else none

/-- _SETUP_PY_BUILD_HELPER_CLASSES.get(build_target, None). -/
def setupPyBuildHelperClassFor (target : String) : Option BuildHelperClass :=
  if target = "dpkg" then some BuildHelperClass.setupPyDPKG
  else if target = "dpkg-source" then some BuildHelperClass.setupPySourceDPKG
  else if target = "msi" then some BuildHelperClass.setupPyMSI
  else if target = "osc" then some BuildHelperClass.setupPyOSC
  else if target = "pkg" then some BuildHelperClass.setupPyPKG
  else if target = "rpm" then some BuildHelperClass.setupPyRPM
  else if target = "source" then some BuildHelperClass.setupPySource
  else if target = "srpm" then some BuildHelperClass.setupPySRPM
  else none

/-- The class-selection part of BuildHelperFactory.NewBuildHelper:
dispatch on build_system, then build_target; None when either axis is
unrecognized.  The final instantiation of the selected class is
modelled separately by newBuildHelperInstance, because one registered
constructor can raise. -/
def newBuildHelper (buildSystem target : String) : Option BuildHelperClass :=
  if buildSystem = "configure_make" then configureMakeBuildHelperClassFor target
  else if buildSystem = "setup_py" then setupPyBuildHelperClassFor target
  else none

/-- The build targets registered in both factory tables. -/
def supportedBuildTargets : List String :=
  ["dpkg", "dpkg-source", "msi", "osc", "pkg", "rpm", "source", "srpm"]

/-- Environment observed by ConfigureMakeMSIBuildHelper.__init__: which
Visual Studio environment variables are present, and whether
tools/msvscpp-convert.py exists under the l2tdevtools path. -/
structure MSIConstructionEnv where
  vs150ComnTools : Bool
  vs140ComnTools : Bool
  vs120ComnTools : Bool
  vs110ComnTools : Bool
  vs100ComnTools : Bool
  vs90ComnTools : Bool
  vcInstallDir : Bool
  msvscppConvertExists : Bool
deriving DecidableEq

/-- The Visual Studio version detection chain of
ConfigureMakeMSIBuildHelper.__init__: the first present environment
variable wins; none present means the constructor raises. -/
def detectVisualStudioVersion (env : MSIConstructionEnv) : Option String :=
  if env.vs150ComnTools then some "2017"
  else if env.vs140ComnTools then some "2015"
  else if env.vs120ComnTools then some "2013"
  else if env.vs110ComnTools then some "2012"
  else if env.vs100ComnTools then some "2010"
  else if env.vs90ComnTools then some "2008"
  else if env.vcInstallDir then some "python"
  else none

/-- ConfigureMakeMSIBuildHelper.__init__: returns the detected Visual
Studio version, raising RuntimeError (modelled as Except.error carrying
the message) when no version can be determined or when the version is
not 2008 and msvscpp-convert.py is missing. -/
def configureMakeMSIInit (env : MSIConstructionEnv) : Except String String :=
  match detectVisualStudioVersion env with
  | none => Except.error "Unable to determine Visual Studio version."
  | some version =>
    if version ≠ "2008" ∧ env.msvscppConvertExists = false then
      Except.error "Unable to find msvscpp-convert.py"
    else Except.ok version

/-- Instantiation of a selected build helper class:
ConfigureMakeMSIBuildHelper's constructor can raise; every other
registered class's constructor always succeeds (no other __init__ in
build_helper.py contains a raise statement). -/
def instantiateBuildHelper (cls : BuildHelperClass) (env : MSIConstructionEnv) :
    Except String BuildHelperClass :=
  match cls with
  | BuildHelperClass.configureMakeMSI =>
    (configureMakeMSIInit env).map fun _ => BuildHelperClass.configureMakeMSI
  | c => Except.ok c

/-- BuildHelperFactory.NewBuildHelper including the final
return build_helper_class(project_definition, l2tdevtools_path): a
missing table entry returns None; instantiation of the selected class
propagates the constructor's RuntimeError. -/
def newBuildHelperInstance (buildSystem target : String) (env : MSIConstructionEnv) :
    Except String (Option BuildHelperClass) :=
  match newBuildHelper buildSystem target with
  | none => Except.ok none
  | some cls => (instantiateBuildHelper cls env).map some

/- ## Architecture normalization at helper construction

ConfigureMakeDPKGBuildHelper.__init__ and MSIBuildHelper.__init__
rewrite the platform.machine() value. -/

/-- ConfigureMakeDPKGBuildHelper.__init__ architecture normalization. -/
def configureMakeDpkgArchitecture (machine : String) : String :=
  if machine = "i686" then "i386"
  else if machine = "x86_64" then "amd64"
  else machine

/-- MSIBuildHelper.__init__ architecture normalization.  The source
tests for the Windows platform.machine() values "x86" and "AMD64". -/
def msiArchitecture (machine : String) : String :=
  if machine = "x86" then "win32"
  else if machine = "AMD64" then "win-amd64"
  else machine

/- ## MSI version sanitization (SetupPyMSIBuildHelper.CheckBuildRequired)

The version massaging applied before computing the expected .msi
filename: append '.1' when there is no dot, else drop the last of
exactly four dot-separated segments, else drop everything from the
last hyphen. -/

/-- The version sanitization sequence of SetupPyMSIBuildHelper.CheckBuildRequired,
translated branch by branch from the if/elif chain in the source. -/
def msiSanitizeVersion (v : String) : String :=
  if !(v.data.contains '.') then v ++ ".1"
  else if (pySplitFields '.' v.data).length = 4 then
    String.mk (pyRPartitionHead '.' v.data)
  else if v.data.contains '-' then
    String.mk (pyRPartitionHead '-' v.data)
  else v

/-- The same rule in the spec's phrasing: a version with exactly four
dot-separated segments is truncated to its first three segments. -/
def msiSanitizeVersionRule (v : String) : String :=
  if !(v.data.contains '.') then v ++ ".1"
  else if (pySplitFields '.' v.data).length = 4 then
    String.mk (List.intercalate ['.'] ((pySplitFields '.' v.data).take 3))
  else if v.data.contains '-' then
    String.mk (pyRPartitionHead '-' v.data)
  else v

/- ## Setuptools epoch stripping in filename-safe project information

SetupPyDPKGBuildHelper._GetFilenameSafeProjectInformation and
BaseRPMBuildHelper._GetFilenameSafeProjectInformation both strip a
leading '1!' from the project version; the RPM variant additionally
replaces '-' with '_'. -/

/-- Version part of SetupPyDPKGBuildHelper._GetFilenameSafeProjectInformation:
if project_version and project_version.startswith('1!'),
project_version = project_version[2:]. -/
def setupPyDpkgSafeVersion (v : String) : String :=
  if v.data ≠ [] ∧ pyStartsWith v "1!" = true then pyDropChars v 2 else v

/-- Python str.replace('-', '_'): a per-character map, since both the
pattern and the replacement are single characters. -/
def replaceHyphens (s : String) : String :=
  String.mk (s.data.map fun c => if c = '-' then '_' else c)

/-- Version part of BaseRPMBuildHelper._GetFilenameSafeProjectInformation:
epoch stripping as in the dpkg variant, then replace('-', '_'). -/
def rpmSafeVersion (v : String) : String :=
  let v1 := if v.data ≠ [] ∧ pyStartsWith v "1!" = true then pyDropChars v 2 else v
  replaceHyphens v1

/- ## Build dependency name mapping (CheckBuildDependencies)

DPKGBuildHelper._BUILD_DEPENDENCY_PACKAGE_NAMES maps generic dependency
names to single package-name strings; the dpkg CheckBuildDependencies
looks a name up with default value [package_name] (a one-element list).
BaseRPMBuildHelper._BUILD_DEPENDENCY_PACKAGE_NAMES maps names to lists
of package names; the RPM CheckBuildDependencies looks a name up with
default value package_name (the bare string) and then iterates over the
result. -/

/-- A Python value that is either a str or a list of str, as produced by
dict.get calls whose default has a different type than the dict values. -/
inductive PyStrOrList where
  | pstr (s : String)
  | plist (l : List String)
deriving DecidableEq

/-- DPKGBuildHelper._BUILD_DEPENDENCY_PACKAGE_NAMES lookup (values are strings). -/
def dpkgBuildDependencyPackageNameFor (n : String) : Option String :=
  if n = "bzip2" then some "libbz2-dev"
  else if n = "fuse" then some "libfuse-dev"
  else if n = "libcrypto" then some "libssl-dev"
  else if n = "sqlite" then some "libsqlite3-dev"
  else if n = "zeromq" then some "libzmq3-dev"
  else if n = "zlib" then some "zlib1g-dev"
  else none

/-- self._BUILD_DEPENDENCY_PACKAGE_NAMES.get(package_name, [package_name])
in DPKGBuildHelper.CheckBuildDependencies: a str for mapped names, a
one-element list for unmapped names. -/
def dpkgResolvedDependency (n : String) : PyStrOrList :=
  match dpkgBuildDependencyPackageNameFor n with
  | some s => PyStrOrList.pstr s
  | none => PyStrOrList.plist [n]

/-- Formatting the resolved value with the format spec s, as done by
the dpkg-query command string in _CheckIsInstalled: succeeds for a str,
raises TypeError (modelled as none) for a list. -/
def formatWithStringSpec : PyStrOrList → Option String
  | PyStrOrList.pstr s => some s
  | PyStrOrList.plist _ => none

/-- BaseRPMBuildHelper._BUILD_DEPENDENCY_PACKAGE_NAMES lookup (values are lists). -/
def rpmBuildDependencyPackageNameFor (n : String) : Option (List String) :=
  if n = "bzip2" then some ["bzip2-devel"]
  else if n = "fuse" then some ["fuse-devel"]
  else if n = "libcrypto" then some ["openssl-devel"]
  else if n = "pytest-runner" then some ["python2-pytest-runner", "python3-pytest-runner"]
  else if n = "sqlite" then some ["sqlite-devel"]
  else if n = "zeromq" then some ["libzmq3-devel"]
  else if n = "zlib" then some ["zlib-devel"]
  else none

/-- The names checked by BaseRPMBuildHelper.CheckBuildDependencies for one
declared dependency: dependencies = table.get(package_name, package_name)
followed by iteration, which for the str default yields the characters
of the name as one-character strings. -/
def rpmCheckedDependencyNames (n : String) : List String :=
  match rpmBuildDependencyPackageNameFor n with
  | some l => l
  | none => n.data.map Char.toString

/- ## Build environments and failure policy

The Build methods are linear command sequences; the environment they
observe (download and extraction results, script existence, exit codes
of the invoked commands) is made explicit as a record. -/

/-- Environment observed by ConfigureMakeSourceBuildHelper.Build. -/
structure ConfigureMakeSourceBuildEnv where
  downloadResult : Option String
  createResult : Option String
  configureExitCode : Nat
  makeExitCode : Nat

/-- ConfigureMakeSourceBuildHelper.Build: download, extract, run
./configure, run make; any failure returns False immediately. -/
def configureMakeSourceBuild (e : ConfigureMakeSourceBuildEnv) : Bool :=
  match e.downloadResult with
  | none => false
  | some _ =>
    match e.createResult with
    | none => false
    | some _ =>
      if e.configureExitCode ≠ 0 then false
      else if e.makeExitCode ≠ 0 then false
      else true

/-- Environment observed by ConfigureMakeDPKGBuildHelper.Build. -/
structure ConfigureMakeDPKGBuildEnv where
  downloadResult : Option String
  createResult : Option String
  packagingFilesCreated : Bool
  prepScriptExists : Bool
  prepScriptExitCode : Nat
  dpkgBuildExitCode : Nat
  postScriptExists : Bool
  postScriptExitCode : Nat

/-- DPKGBuildHelper._BuildPrepare: runs prep-dpkg.sh when present;
False exactly when the script exists and exits non-zero. -/
def buildPrepareResult (e : ConfigureMakeDPKGBuildEnv) : Bool :=
  !e.prepScriptExists || e.prepScriptExitCode == 0

/-- DPKGBuildHelper._BuildFinalize: runs post-dpkg.sh when present;
False exactly when the script exists and exits non-zero. -/
def buildFinalizeResult (e : ConfigureMakeDPKGBuildEnv) : Bool :=
  !e.postScriptExists || e.postScriptExitCode == 0

/-- ConfigureMakeDPKGBuildHelper.Build: download, create original source
package, extract, create packaging files, prepare, dpkg-buildpackage,
finalize; any failure returns False immediately. -/
def configureMakeDPKGBuild (e : ConfigureMakeDPKGBuildEnv) : Bool :=
  match e.downloadResult with
  | none => false
  | some _ =>
    match e.createResult with
    | none => false
    | some _ =>
      if !e.packagingFilesCreated then false
      else if !(buildPrepareResult e) then false
      else if e.dpkgBuildExitCode ≠ 0 then false
      else if !(buildFinalizeResult e) then false
      else true

/- ## Working directory discipline (ConfigureMakeMSIBuildHelper._ConvertSolutionFiles)

The process-wide current working directory is modelled as a list of
path segments; os.chdir into a relative subdirectory pushes a segment,
os.chdir('..') pops one. -/

/-- ConfigureMakeMSIBuildHelper._ConvertSolutionFiles.  Inputs: the
caller's working directory, the source directory name, the number of
.sln files found by the msvscpp glob, whether a vs2008 directory
already exists, and the exit code of the msvscpp-convert command.
Output: the Python return value (False on the error paths, implicitly
None otherwise) and the working directory on return. -/
def convertSolutionFiles (startCwd : List String) (sourceDirectory : String)
    (solutionFileCount : Nat) (vs2008Exists : Bool) (convertExitCode : Nat) :
    Option Bool × List String :=
  let cwd := startCwd ++ [sourceDirectory]
  if solutionFileCount ≠ 1 then (some false, cwd)
  else if vs2008Exists then (none, startCwd)
  else if convertExitCode ≠ 0 then (some false, cwd)
  else (none, startCwd)

/- ## ConfigureMakeMSIBuildHelper.Build and _BuildMSBuild

The MSBuild sequence is a linear chain of checks and commands; the
environment it observes is made explicit as a record.  The result of
the solution-file conversion step is discarded by the source
(build_helper.py:1143-1144 calls self._ConvertSolutionFiles without
using its return value). -/

/-- Environment observed by ConfigureMakeMSIBuildHelper._BuildMSBuild.
platformValue is the first non-empty value of the Platform and
TARGET_CPU environment variables, none when both are unset or empty. -/
structure MSBuildEnv where
  msbuildExeExists : Bool
  versionVariableValueNonEmpty : Bool
  zlibDependencyMissing : Bool
  dokanDependencyMissing : Bool
  vs2008DirectoryExists : Bool
  convertSolutionFileCount : Nat
  convertExitCode : Nat
  platformValue : Option String
  solutionFileCount : Nat
  msbuildExitCode : Nat
  pythonModuleDistDirectoryExists : Bool
  setupPyExitCode : Nat
  moveMSISucceeds : Bool
deriving DecidableEq

/-- ConfigureMakeMSIBuildHelper._BuildMSBuild: locate MSBuild.exe (its
path is empty for versions other than 2008 and 2010..2017), check the
version environment variable and the zlib and dokan dependencies,
convert the solution files for the post-2008 versions (result
discarded, as in the source), determine the build platform, find the
solution file, run MSBuild (exit checked), then build and move the MSI
from the python module directory unless its dist directory exists. -/
def configureMakeMSIBuildMSBuild (version : String) (e : MSBuildEnv) : Bool :=
  if ¬(version = "2008" ∨ version ∈ ["2010", "2012", "2013", "2015", "2017"]) then false
  else if ¬e.msbuildExeExists then false
  else if ¬e.versionVariableValueNonEmpty then false
  else if e.zlibDependencyMissing then false
  else if e.dokanDependencyMissing then false
  else
    let _conversionResult :=
      if version ∈ ["2010", "2012", "2013", "2015", "2017"] then
        (convertSolutionFiles [] "src" e.convertSolutionFileCount
          e.vs2008DirectoryExists e.convertExitCode).1
      else none
    let msvscppPlatform := match e.platformValue with
      | none => "Win32"
      | some p => if p = "x86" then "Win32" else p
    if ¬(msvscppPlatform = "Win32" ∨ msvscppPlatform = "x64") then false
    else if version = "2008" ∧ msvscppPlatform = "x64" then false
    else if e.solutionFileCount ≠ 1 then false
    else if e.msbuildExitCode ≠ 0 then false
    else if e.pythonModuleDistDirectoryExists then true
    else if e.setupPyExitCode ≠ 0 then false
    else e.moveMSISucceeds

/-- Environment observed by ConfigureMakeMSIBuildHelper.Build.
applyPatchesResult is the value _ApplyPatches returns when the project
declares patches; the setup.py branch fields mirror the source. -/
structure ConfigureMakeMSIBuildEnv where
  downloadResult : Option String
  createResult : Option String
  hasPatches : Bool
  applyPatchesResult : Bool
  setupPyFileExists : Bool
  msbuild : MSBuildEnv
  distDirectoryExists : Bool
  buildSetupPyExitCode : Nat
  moveMSISucceeds : Bool
deriving DecidableEq

/-- ConfigureMakeMSIBuildHelper.Build: download, extract, apply patches
when declared, then either _BuildMSBuild (no setup.py) or the setup.py
bdist_msi branch; result starts False and the setup.py branch leaves it
False when the dist directory already exists. -/
def configureMakeMSIBuild (version : String) (e : ConfigureMakeMSIBuildEnv) : Bool :=
  match e.downloadResult with
  | none => false
  | some _ =>
    match e.createResult with
    | none => false
    | some _ =>
      if e.hasPatches ∧ e.applyPatchesResult = false then false
      else if ¬e.setupPyFileExists then configureMakeMSIBuildMSBuild version e.msbuild
      else if e.distDirectoryExists then false
      else if e.buildSetupPyExitCode ≠ 0 then false
      else e.moveMSISucceeds

/- ## Patch utility lookup (MSIBuildHelper._ApplyPatches)

The candidate patch.exe locations are built with os.sep; the search
loop reuses the loop variable, so after an unsuccessful search the
variable holds the last candidate, not None. -/

/-- MSIBuildHelper._COMMON_PATCH_EXE_PATHS, parameterized by os.sep. -/
def commonPatchExePathValues (sep : String) : List String :=
  ["C:" ++ sep ++ "GnuWin" ++ sep ++ "bin" ++ sep ++ "patch.exe",
   "C:" ++ sep ++ "GnuWin32" ++ sep ++ "bin" ++ sep ++ "patch.exe",
   "C:" ++ sep ++ "Program Files (x86)" ++ sep ++ "GnuWin" ++ sep ++ "bin" ++ sep ++ "patch.exe",
   "C:" ++ sep ++ "Program Files (x86)" ++ sep ++ "GnuWin32" ++ sep ++ "bin" ++ sep ++ "patch.exe",
   "C:" ++ sep ++ "ProgramData" ++ sep ++ "chocolatey" ++ sep ++ "bin" ++ sep ++ "patch.exe"]

/-- The search loop of _ApplyPatches: patch_exe_path starts as None, is
assigned each candidate in turn, and the loop breaks at the first
candidate that exists on disk. -/
def findPatchExeLoop (pathExistsOn : String → Bool) (current : Option String) :
    List String → Option String
  | [] => current
  | p :: rest =>
    if pathExistsOn p then some p else findPatchExeLoop pathExistsOn (some p) rest

/-- The per-patch loop of _ApplyPatches: a missing patch file is skipped
with a warning; a failing patch command returns False; otherwise True. -/
def applyPatchLoop (patchFileExistsOn : String → Bool)
    (patchCommandExitCode : String → Nat) : List String → Bool
  | [] => true
  | p :: rest =>
    if !(patchFileExistsOn p) then applyPatchLoop patchFileExistsOn patchCommandExitCode rest
    else if patchCommandExitCode p ≠ 0 then false
    else applyPatchLoop patchFileExistsOn patchCommandExitCode rest

/-- MSIBuildHelper._ApplyPatches: search for patch.exe, return False
(after logging) when the search result is falsy, then apply each patch. -/
def applyPatches (sep : String) (pathExistsOn : String → Bool) (patches : List String)
    (patchFileExistsOn : String → Bool) (patchCommandExitCode : String → Nat) : Bool :=
  match findPatchExeLoop pathExistsOn none (commonPatchExePathValues sep) with
  | none => false
  | some _ => applyPatchLoop patchFileExistsOn patchCommandExitCode patches

/- ## Source package renaming (ConfigureMakeRPMBuildHelper.Build,
ConfigureMakeSRPMBuildHelper.Build)

Both methods rename the downloaded source package to the
name-version.tar.gz form rpmbuild expects, build, and rename back.
The state tracks the current on-disk name of the source package. -/

/-- The current name of the downloaded source package file. -/
structure SourcePackageState where
  sourcePackageName : Option String
deriving DecidableEq

/-- os.rename(oldName, newName) applied to the tracked source package. -/
def renameSourcePackage (oldName newName : String) (st : SourcePackageState) :
    SourcePackageState :=
  if st.sourcePackageName = some oldName then { sourcePackageName := some newName } else st

/-- ConfigureMakeRPMBuildHelper.Build: download, rename to
name-version.tar.gz, rpmbuild -tb (exit code from the environment),
move rpms and remove the build directory on success (neither touches
the source package), rename back, return the build result. -/
def configureMakeRPMBuild (downloadResult : Option String)
    (projectName projectVersion : String) (rpmbuildExitCode : Nat)
    (st : SourcePackageState) : Bool × SourcePackageState :=
  match downloadResult with
  | none => (false, st)
  | some sourcePackageFilename =>
    let rpmSourcePackageFilename := projectName ++ "-" ++ projectVersion ++ ".tar.gz"
    let st1 := renameSourcePackage sourcePackageFilename rpmSourcePackageFilename st
    let buildSuccessful := rpmbuildExitCode == 0
    let st2 := renameSourcePackage rpmSourcePackageFilename sourcePackageFilename st1
    (buildSuccessful, st2)

/-- ConfigureMakeSRPMBuildHelper.Build: identical renaming structure,
with rpmbuild -ts and _MoveRPMs on success. -/
def configureMakeSRPMBuild (downloadResult : Option String)
    (projectName projectVersion : String) (rpmbuildExitCode : Nat)
    (st : SourcePackageState) : Bool × SourcePackageState :=
  match downloadResult with
  | none => (false, st)
  | some sourcePackageFilename =>
    let rpmSourcePackageFilename := projectName ++ "-" ++ projectVersion ++ ".tar.gz"
    let st1 := renameSourcePackage sourcePackageFilename rpmSourcePackageFilename st
    let buildSuccessful := rpmbuildExitCode == 0
    let st2 := renameSourcePackage rpmSourcePackageFilename sourcePackageFilename st1
    (buildSuccessful, st2)

/- ## Glob and regular-expression matching for _RemoveOlderDPKGPackages

DPKGBuildHelper._RemoveOlderDPKGPackages builds an ignore pattern
re.compile of the form name[-_].*version anchored at the start, globs
for two filename patterns and removes every match that the ignore
pattern does not match.  The fragment of fnmatch and re semantics the
constructed patterns can use is implemented here: literal characters,
the any-sequence star and bracketed character classes for globs;
literal characters, the any-character dot, the star quantifier and
bracketed character classes for regular expressions.  Both matchers
recurse on an explicit fuel that is at least pattern length plus
subject length plus one, which every recursive call preserves as an
upper bound, so the fuel never runs out on the initial call. -/

/-- Parses the body of a bracketed character class (after the opening
bracket) into a list of inclusive character ranges, returning the
remaining pattern after the closing bracket.  A single character c is
the range (c, c); a trailing hyphen is literal. -/
def parseClassItems : List Char → Option (List (Char × Char) × List Char)
  | [] => none
  | ']' :: rest => some ([], rest)
  | a :: '-' :: b :: rest =>
    if b = ']' then some ([(a, a), ('-', '-')], rest)
    else
      match parseClassItems rest with
      | some (items, rem) => some ((a, b) :: items, rem)
      | none => none
  | a :: rest =>
    match parseClassItems rest with
    | some (items, rem) => some ((a, a) :: items, rem)
    | none => none

/-- True when c falls in one of the ranges of a character class. -/
def matchClassItems (items : List (Char × Char)) (c : Char) : Bool :=
  items.any fun p => decide (p.1 ≤ c ∧ c ≤ p.2)

/-- Fueled fnmatch-style glob matching: star matches any sequence,
brackets match a character class, everything else is literal, and the
whole subject must be consumed. -/
def globMatchFuel : Nat → List Char → List Char → Bool
  | 0, _, _ => false
  | _ + 1, [], s => s.isEmpty
  | fuel + 1, '*' :: ps, s =>
    globMatchFuel fuel ps s ||
      (match s with
       | [] => false
       | _ :: s2 => globMatchFuel fuel ('*' :: ps) s2)
  | fuel + 1, '[' :: ps, s =>
    (match parseClassItems ps with
     | some (items, rest) =>
       (match s with
        | [] => false
        | c :: s2 => matchClassItems items c && globMatchFuel fuel rest s2)
     | none =>
       (match s with
        | [] => false
        | c :: s2 => if c = '[' then globMatchFuel fuel ps s2 else false))
  | fuel + 1, p :: ps, s =>
    match s with
    | [] => false
    | c :: s2 => if p = c then globMatchFuel fuel ps s2 else false

/-- glob-pattern matching of a single filename. -/
def globMatch (pat s : String) : Bool :=
  globMatchFuel (pat.data.length + s.data.length + 1) pat.data s.data

/-- One regular-expression atom of the fragment used by the ignore
patterns: the any-character dot, a character class, or a literal. -/
inductive ReAtom where
  | anyChar
  | litChar (c : Char)
  | charClassItems (items : List (Char × Char))

/-- Whether a regular-expression atom matches one character. -/
def reAtomMatches : ReAtom → Char → Bool
  | ReAtom.anyChar, _ => true
  | ReAtom.litChar a, c => a = c
  | ReAtom.charClassItems items, c => matchClassItems items c

/-- Parses one atom from the head of a regular-expression pattern. -/
def parseReAtom : List Char → Option (ReAtom × List Char)
  | [] => none
  | '.' :: rest => some (ReAtom.anyChar, rest)
  | '[' :: rest =>
    (match parseClassItems rest with
     | some (items, rem) => some (ReAtom.charClassItems items, rem)
     | none => some (ReAtom.litChar '[', rest))
  | c :: rest => some (ReAtom.litChar c, rest)

/-- Fueled matching in the style of re.match: the pattern must match a
prefix of the subject, a star after an atom matches any number of
repetitions of that atom. -/
def reMatchFuel : Nat → List Char → List Char → Bool
  | 0, _, _ => false
  | _ + 1, [], _ => true
  | fuel + 1, pat, s =>
    match parseReAtom pat with
    | none => false
    | some (atom, rest) =>
      match rest with
      | '*' :: rest2 =>
        reMatchFuel fuel rest2 s ||
          (match s with
           | [] => false
           | c :: s2 => reAtomMatches atom c && reMatchFuel fuel pat s2)
      | _ =>
        match s with
        | [] => false
        | c :: s2 => reAtomMatches atom c && reMatchFuel fuel rest s2

/-- re.match of a compiled pattern against a filename: anchored at the
start of the subject; a leading caret is the (redundant) start anchor. -/
def reMatches (pat s : String) : Bool :=
  let p := match pat.data with
    | '^' :: rest => rest
    | l => l
  reMatchFuel (p.length + s.data.length + 1) p s.data

/-- DPKGBuildHelper._RemoveOlderDPKGPackages on an explicit list of the
filenames in the current directory: two glob passes, each removing the
matches that the ignore pattern does not match; returns the filenames
that remain. -/
def removeOlderDPKGPackages (projectName projectVersion architecture : String)
    (files : List String) : List String :=
  let filenamesToIgnore := "^" ++ projectName ++ "[-_].*" ++ projectVersion
  let firstGlob := projectName ++ "[-_]*-[1-9]_" ++ architecture ++ ".*"
  let afterFirst := files.filter fun f =>
    !(globMatch firstGlob f && !(reMatches filenamesToIgnore f))
  let secondGlob := projectName ++ "[-_]*-[1-9].*"
  afterFirst.filter fun f =>
    !(globMatch secondGlob f && !(reMatches filenamesToIgnore f))

/- ## Theorems -/

/-- Claim C1 counterexample: for the supported pair (configure_make,
msi) on a host with no Visual Studio environment variables set,
NewBuildHelper propagates the constructor's RuntimeError instead of
returning a non-absent instance, and with a post-2008 Visual Studio
detected but msvscpp-convert.py missing it raises as well. -/
theorem factory_msi_instantiation_counterexample :
    newBuildHelperInstance "configure_make" "msi"
        ⟨false, false, false, false, false, false, false, false⟩ =
      Except.error "Unable to determine Visual Studio version." ∧
    newBuildHelperInstance "configure_make" "msi"
        ⟨true, false, false, false, false, false, false, false⟩ =
      Except.error "Unable to find msvscpp-convert.py" ∧
    newBuildHelperInstance "configure_make" "msi"
        ⟨false, false, false, false, false, false, false, false⟩ ≠
      Except.ok (some BuildHelperClass.configureMakeMSI) :=
  ⟨rfl, rfl, fun h => Except.noConfusion h⟩

/-- Claim C1 amended: the factory's class selection matches every
supported (build system, target) pair; every selected class other than
ConfigureMakeMSIBuildHelper instantiates successfully in every
environment, so NewBuildHelper returns a non-absent instance for those
pairs; for (configure_make, msi) NewBuildHelper propagates the outcome
of ConfigureMakeMSIBuildHelper's constructor, which raises RuntimeError
when no Visual Studio version is detected, or the detected version is
not 2008 and msvscpp-convert.py is missing; every unsupported pair
returns None without raising, in every environment. -/
theorem factory_dispatch_amended :
    (newBuildHelper "configure_make" "dpkg" = some BuildHelperClass.configureMakeDPKG ∧
     newBuildHelper "configure_make" "dpkg-source" = some BuildHelperClass.configureMakeSourceDPKG ∧
     newBuildHelper "configure_make" "msi" = some BuildHelperClass.configureMakeMSI ∧
     newBuildHelper "configure_make" "osc" = some BuildHelperClass.configureMakeOSC ∧
     newBuildHelper "configure_make" "pkg" = some BuildHelperClass.configureMakePKG ∧
     newBuildHelper "configure_make" "rpm" = some BuildHelperClass.configureMakeRPM ∧
     newBuildHelper "configure_make" "source" = some BuildHelperClass.configureMakeSource ∧
     newBuildHelper "configure_make" "srpm" = some BuildHelperClass.configureMakeSRPM ∧
     newBuildHelper "setup_py" "dpkg" = some BuildHelperClass.setupPyDPKG ∧
     newBuildHelper "setup_py" "dpkg-source" = some BuildHelperClass.setupPySourceDPKG ∧
     newBuildHelper "setup_py" "msi" = some BuildHelperClass.setupPyMSI ∧
     newBuildHelper "setup_py" "osc" = some BuildHelperClass.setupPyOSC ∧
     newBuildHelper "setup_py" "pkg" = some BuildHelperClass.setupPyPKG ∧
     newBuildHelper "setup_py" "rpm" = some BuildHelperClass.setupPyRPM ∧
     newBuildHelper "setup_py" "source" = some BuildHelperClass.setupPySource ∧
     newBuildHelper "setup_py" "srpm" = some BuildHelperClass.setupPySRPM) ∧
    (∀ env : MSIConstructionEnv,
      newBuildHelperInstance "configure_make" "dpkg" env =
        Except.ok (some BuildHelperClass.configureMakeDPKG) ∧
      newBuildHelperInstance "configure_make" "dpkg-source" env =
        Except.ok (some BuildHelperClass.configureMakeSourceDPKG) ∧
      newBuildHelperInstance "configure_make" "osc" env =
        Except.ok (some BuildHelperClass.configureMakeOSC) ∧
      newBuildHelperInstance "configure_make" "pkg" env =
        Except.ok (some BuildHelperClass.configureMakePKG) ∧
      newBuildHelperInstance "configure_make" "rpm" env =
        Except.ok (some BuildHelperClass.configureMakeRPM) ∧
      newBuildHelperInstance "configure_make" "source" env =
        Except.ok (some BuildHelperClass.configureMakeSource) ∧
      newBuildHelperInstance "configure_make" "srpm" env =
        Except.ok (some BuildHelperClass.configureMakeSRPM) ∧
      newBuildHelperInstance "setup_py" "dpkg" env =
        Except.ok (some BuildHelperClass.setupPyDPKG) ∧
      newBuildHelperInstance "setup_py" "dpkg-source" env =
        Except.ok (some BuildHelperClass.setupPySourceDPKG) ∧
      newBuildHelperInstance "setup_py" "msi" env =
        Except.ok (some BuildHelperClass.setupPyMSI) ∧
      newBuildHelperInstance "setup_py" "osc" env =
        Except.ok (some BuildHelperClass.setupPyOSC) ∧
      newBuildHelperInstance "setup_py" "pkg" env =
        Except.ok (some BuildHelperClass.setupPyPKG) ∧
      newBuildHelperInstance "setup_py" "rpm" env =
        Except.ok (some BuildHelperClass.setupPyRPM) ∧
      newBuildHelperInstance "setup_py" "source" env =
        Except.ok (some BuildHelperClass.setupPySource) ∧
      newBuildHelperInstance "setup_py" "srpm" env =
        Except.ok (some BuildHelperClass.setupPySRPM)) ∧
    (∀ env : MSIConstructionEnv,
      newBuildHelperInstance "configure_make" "msi" env =
        (configureMakeMSIInit env).map fun _ => some BuildHelperClass.configureMakeMSI) ∧
    (∀ buildSystem target : String, ∀ env : MSIConstructionEnv,
      ¬((buildSystem = "configure_make" ∨ buildSystem = "setup_py") ∧
          target ∈ supportedBuildTargets) →
        newBuildHelperInstance buildSystem target env = Except.ok none) := by
  refine ⟨by decide, ?_, ?_, ?_⟩
  · intro env
    exact ⟨rfl, rfl, rfl, rfl, rfl, rfl, rfl, rfl, rfl, rfl, rfl, rfl, rfl, rfl, rfl⟩
  · intro env
    have hd : newBuildHelper "configure_make" "msi" =
        some BuildHelperClass.configureMakeMSI := by decide
    simp only [newBuildHelperInstance, hd, instantiateBuildHelper]
    cases hc : configureMakeMSIInit env <;> simp [Except.map, hc]
  · intro bs t env h
    have hn : newBuildHelper bs t = none := by
      by_cases hcm : bs = "configure_make"
      · subst hcm
        have ht : t ∉ supportedBuildTargets := fun hmem => h ⟨Or.inl rfl, hmem⟩
        simp only [supportedBuildTargets, List.mem_cons, List.not_mem_nil, or_false,
          not_or] at ht
        obtain ⟨h1, h2, h3, h4, h5, h6, h7, h8⟩ := ht
        simp [newBuildHelper, configureMakeBuildHelperClassFor, h1, h2, h3, h4, h5, h6, h7, h8]
      · by_cases hsp : bs = "setup_py"
        · subst hsp
          have ht : t ∉ supportedBuildTargets := fun hmem => h ⟨Or.inr rfl, hmem⟩
          simp only [supportedBuildTargets, List.mem_cons, List.not_mem_nil, or_false,
            not_or] at ht
          obtain ⟨h1, h2, h3, h4, h5, h6, h7, h8⟩ := ht
          have hne : ("setup_py" : String) ≠ "configure_make" := by decide
          simp [newBuildHelper, setupPyBuildHelperClassFor, hne, h1, h2, h3, h4, h5, h6, h7, h8]
        · unfold newBuildHelper
          rw [if_neg hcm, if_neg hsp]
    simp [newBuildHelperInstance, hn]

/-- Witness for claim C1 amended: a supported pair instantiating
successfully and unsupported pairs returning None, at concrete inputs. -/
theorem factory_dispatch_amended_witness :
    newBuildHelperInstance "configure_make" "dpkg"
        ⟨false, false, false, false, false, false, false, false⟩ =
      Except.ok (some BuildHelperClass.configureMakeDPKG) ∧
    newBuildHelperInstance "cmake" "dpkg"
        ⟨false, false, false, false, false, false, false, false⟩ = Except.ok none ∧
    newBuildHelperInstance "configure_make" "deb"
        ⟨true, true, true, true, true, true, true, true⟩ = Except.ok none :=
  ⟨(factory_dispatch_amended.2.1
      ⟨false, false, false, false, false, false, false, false⟩).1,
   factory_dispatch_amended.2.2.2 "cmake" "dpkg"
      ⟨false, false, false, false, false, false, false, false⟩ (by decide),
   factory_dispatch_amended.2.2.2 "configure_make" "deb"
      ⟨true, true, true, true, true, true, true, true⟩ (by decide)⟩

/-- Claim C2: the MSI version sanitization appends '.1' to a version
with no dot, otherwise truncates a version with exactly four
dot-separated segments to its first three segments, otherwise drops
everything from the last hyphen of a version containing a hyphen. -/
theorem msi_version_sanitization :
    msiSanitizeVersion "5" = "5.1" ∧
    msiSanitizeVersion "1.2.3.4" = "1.2.3" ∧
    msiSanitizeVersion "1.2.3-4" = "1.2.3" ∧
    ∀ v : String, msiSanitizeVersion v = msiSanitizeVersionRule v := by
  refine ⟨by decide, by decide, by decide, ?_⟩
  intro v
  unfold msiSanitizeVersion msiSanitizeVersionRule
  split_ifs with h1 h2
  · rfl
  · unfold pyRPartitionHead
    rw [List.dropLast_eq_take, h2]
  · rfl
  · rfl

/-- Claim C3: _RemoveOlderDPKGPackages keeps every file that the current
project version's ignore pattern matches, and removes every file that
either of the format's globs for the project name matches and the
ignore pattern does not match. -/
theorem remove_older_dpkg_packages_spec
    (projectName projectVersion architecture : String) (files : List String)
    (f : String) (hf : f ∈ files) :
    (reMatches ("^" ++ projectName ++ "[-_].*" ++ projectVersion) f = true →
      f ∈ removeOlderDPKGPackages projectName projectVersion architecture files) ∧
    ((globMatch (projectName ++ "[-_]*-[1-9]_" ++ architecture ++ ".*") f = true ∨
        globMatch (projectName ++ "[-_]*-[1-9].*") f = true) →
      reMatches ("^" ++ projectName ++ "[-_].*" ++ projectVersion) f = false →
        f ∉ removeOlderDPKGPackages projectName projectVersion architecture files) := by
  simp only [removeOlderDPKGPackages]
  constructor
  · intro hig
    refine List.mem_filter.mpr ⟨List.mem_filter.mpr ⟨hf, ?_⟩, ?_⟩ <;> simp [hig]
  · intro hg hnig hmem
    obtain ⟨hmem1, hp2⟩ := List.mem_filter.mp hmem
    obtain ⟨_, hp1⟩ := List.mem_filter.mp hmem1
    rcases hg with hg | hg
    · simp [hg, hnig] at hp1
    · simp [hg, hnig] at hp2

/-- Witness for claim C3: with project foo version 1.0 on amd64, the
current version's package survives and an older package is removed. -/
theorem remove_older_dpkg_packages_spec_witness :
    ("foo_1.0-1_amd64.deb" ∈ removeOlderDPKGPackages "foo" "1.0" "amd64"
        ["foo_1.0-1_amd64.deb", "foo_0.9-1_amd64.deb"]) ∧
    ("foo_0.9-1_amd64.deb" ∉ removeOlderDPKGPackages "foo" "1.0" "amd64"
        ["foo_1.0-1_amd64.deb", "foo_0.9-1_amd64.deb"]) :=
  ⟨(remove_older_dpkg_packages_spec "foo" "1.0" "amd64"
      ["foo_1.0-1_amd64.deb", "foo_0.9-1_amd64.deb"] "foo_1.0-1_amd64.deb"
      (by decide)).1 (by decide),
   (remove_older_dpkg_packages_spec "foo" "1.0" "amd64"
      ["foo_1.0-1_amd64.deb", "foo_0.9-1_amd64.deb"] "foo_0.9-1_amd64.deb"
      (by decide)).2 (Or.inl (by decide)) (by decide)⟩

/-- Claim C4 counterexample: a host machine architecture of i686 leaves
the MSI helper's architecture as i686, not win32, and x86_64 stays
x86_64, not win-amd64; the source tests the Windows platform values. -/
theorem msi_architecture_counterexample :
    msiArchitecture "i686" = "i686" ∧ msiArchitecture "i686" ≠ "win32" ∧
    msiArchitecture "x86_64" = "x86_64" ∧ msiArchitecture "x86_64" ≠ "win-amd64" := by
  decide

/-- Claim C4 amended: the dpkg helper maps i686 to i386 and x86_64 to
amd64; the MSI helper maps the Windows-reported machine values x86 to
win32 and AMD64 to win-amd64, leaving all other values unchanged. -/
theorem architecture_normalization_amended :
    configureMakeDpkgArchitecture "i686" = "i386" ∧
    configureMakeDpkgArchitecture "x86_64" = "amd64" ∧
    msiArchitecture "x86" = "win32" ∧
    msiArchitecture "AMD64" = "win-amd64" := by decide

/-- Claim C5 counterexample: in the MSBuild path of
ConfigureMakeMSIBuildHelper.Build the solution conversion command is
invoked and exits non-zero (the modelled _ConvertSolutionFiles returns
False), yet Build returns True, because _BuildMSBuild discards the
conversion result. -/
theorem msi_build_ignores_convert_failure :
    (convertSolutionFiles [] "src" 1 false 2).1 = some false ∧
    (2 : Nat) ≠ 0 ∧
    configureMakeMSIBuild "2010"
      ⟨some "libbde-alpha-20180101.tar.gz", some "libbde-20180101", false, true, false,
        ⟨true, true, false, false, false, 1, 2, none, 1, 0, true, 0, true⟩,
        false, 0, true⟩ = true := by decide

/-- Claim C5 amended: for the modelled strategies a non-zero exit of a
checked external command makes the enclosing operation return False,
and the configure_make source Build returns True exactly when
download, extraction, ./configure and make all succeed; the exception
is the Visual Studio solution conversion step of the MSI strategy,
whose exit status _BuildMSBuild discards, so its result is independent
of the conversion exit code, while a non-zero MSBuild exit still
forces False. -/
theorem build_failure_policy_amended :
    (∀ (version : String) (e : MSBuildEnv),
      e.msbuildExitCode ≠ 0 → configureMakeMSIBuildMSBuild version e = false) ∧
    (∀ (version : String) (e : MSBuildEnv) (c : Nat),
      configureMakeMSIBuildMSBuild version { e with convertExitCode := c } =
        configureMakeMSIBuildMSBuild version e) ∧
    (∀ e : ConfigureMakeSourceBuildEnv,
      configureMakeSourceBuild e = true ↔
        e.downloadResult.isSome = true ∧ e.createResult.isSome = true ∧
        e.configureExitCode = 0 ∧ e.makeExitCode = 0) ∧
    (∀ e : ConfigureMakeSourceBuildEnv,
      e.configureExitCode ≠ 0 ∨ e.makeExitCode ≠ 0 →
        configureMakeSourceBuild e = false) ∧
    (∀ e : ConfigureMakeDPKGBuildEnv,
      (e.prepScriptExists = true ∧ e.prepScriptExitCode ≠ 0) ∨
        e.dpkgBuildExitCode ≠ 0 ∨
        (e.postScriptExists = true ∧ e.postScriptExitCode ≠ 0) →
      configureMakeDPKGBuild e = false) := by
  refine ⟨?_, ?_, ?_, ?_, ?_⟩
  · intro version e h
    by_cases h0 : e.msbuildExitCode = 0
    · exact absurd h0 h
    · simp [configureMakeMSIBuildMSBuild, h0]
  · intro version e c
    rfl
  · rintro ⟨d, c, cfg, mk⟩
    cases d <;> cases c <;> simp [configureMakeSourceBuild]
  · rintro ⟨d, c, cfg, mk⟩ h
    cases d <;> cases c <;> simp_all [configureMakeSourceBuild]
    tauto
  · rintro ⟨d, c, pf, pse, pec, dbe, pose, posec⟩ h
    cases d with
    | none => simp [configureMakeDPKGBuild]
    | some dv =>
      cases c with
      | none => simp [configureMakeDPKGBuild]
      | some cv =>
        rcases h with ⟨hpse, hpec⟩ | hd | ⟨hpose, hposec⟩
        · simp_all [configureMakeDPKGBuild, buildPrepareResult]
        · simp_all [configureMakeDPKGBuild]
        · simp_all [configureMakeDPKGBuild, buildPrepareResult, buildFinalizeResult]

/-- Witness for claim C5 amended: a failing MSBuild invocation, a
failing make and a failing dpkg-buildpackage each make the enclosing
operation return False. -/
theorem build_failure_policy_amended_witness :
    configureMakeMSIBuildMSBuild "2013"
      ⟨true, true, false, false, false, 1, 0, none, 1, 3, true, 0, true⟩ = false ∧
    configureMakeSourceBuild ⟨some "libfoo.tar.gz", some "libfoo-1", 0, 2⟩ = false ∧
    configureMakeDPKGBuild
      ⟨some "libfoo.tar.gz", some "libfoo-1", true, false, 0, 2, false, 0⟩ = false :=
  ⟨build_failure_policy_amended.1 "2013"
      ⟨true, true, false, false, false, 1, 0, none, 1, 3, true, 0, true⟩ (by decide),
   build_failure_policy_amended.2.2.2.1 ⟨some "libfoo.tar.gz", some "libfoo-1", 0, 2⟩
      (Or.inr (by decide)),
   build_failure_policy_amended.2.2.2.2
      ⟨some "libfoo.tar.gz", some "libfoo-1", true, false, 0, 2, false, 0⟩
      (Or.inr (Or.inl (by decide)))⟩

/-- Claim C6 (code bug evaluation): mapped dependency names are
translated (zlib becomes zlib1g-dev for dpkg and zlib-devel for RPM),
but an unmapped name does not pass through unchanged: the dpkg lookup
default wraps it in a one-element list whose formatting with the
string format spec fails, and the RPM lookup default is the bare
string, which the subsequent iteration traverses character by
character. -/
theorem dependency_name_mapping_bug :
    dpkgResolvedDependency "zlib" = PyStrOrList.pstr "zlib1g-dev" ∧
    rpmCheckedDependencyNames "zlib" = ["zlib-devel"] ∧
    dpkgResolvedDependency "libyaml" = PyStrOrList.plist ["libyaml"] ∧
    formatWithStringSpec (dpkgResolvedDependency "libyaml") = none ∧
    rpmCheckedDependencyNames "libyaml" = ["l", "i", "b", "y", "a", "m", "l"] ∧
    rpmCheckedDependencyNames "libyaml" ≠ ["libyaml"] := by decide

/-- Claim C7 (code bug evaluation): _ConvertSolutionFiles changes into
the source directory and returns False from its early-return paths (no
solution file found, converter exit non-zero) without restoring the
caller's working directory; only the non-error path restores it. -/
theorem convert_solution_files_cwd_bug :
    convertSolutionFiles ["l2tbuilds"] "libfoo-20180101" 0 false 0 =
      (some false, ["l2tbuilds", "libfoo-20180101"]) ∧
    convertSolutionFiles ["l2tbuilds"] "libfoo-20180101" 1 false 2 =
      (some false, ["l2tbuilds", "libfoo-20180101"]) ∧
    (["l2tbuilds", "libfoo-20180101"] : List String) ≠ ["l2tbuilds"] ∧
    convertSolutionFiles ["l2tbuilds"] "libfoo-20180101" 1 false 0 =
      (none, ["l2tbuilds"]) := by decide

/-- Claim C8 counterexample: for the version 1!1.0-1 the RPM strategy's
filename-safe version is 1.0_1, not the original string with the first
two characters removed (1.0-1), because hyphens are also replaced. -/
theorem rpm_epoch_version_counterexample :
    rpmSafeVersion "1!1.0-1" = "1.0_1" ∧
    pyDropChars "1!1.0-1" 2 = "1.0-1" ∧
    ("1.0_1" : String) ≠ "1.0-1" := by decide

/-- Claim C8 amended: a version starting with the epoch marker has its
first two characters removed in both strategies, and the RPM strategy
additionally replaces every hyphen with an underscore; a version
without the marker is unmodified by epoch stripping (the RPM hyphen
replacement still applies). -/
theorem epoch_stripping_amended :
    (∀ v : String, pyStartsWith v "1!" = true →
      setupPyDpkgSafeVersion v = pyDropChars v 2 ∧
      rpmSafeVersion v = replaceHyphens (pyDropChars v 2)) ∧
    (∀ v : String, pyStartsWith v "1!" = false →
      setupPyDpkgSafeVersion v = v ∧
      rpmSafeVersion v = replaceHyphens v) := by
  constructor
  · intro v hv
    have hne : v.data ≠ [] := by
      intro hd
      unfold pyStartsWith at hv
      rw [hd, List.take_nil] at hv
      exact (by decide : ("1!".data : List Char) ≠ []) (of_decide_eq_true hv).symm
    constructor
    · rw [setupPyDpkgSafeVersion, if_pos ⟨hne, hv⟩]
    · simp only [rpmSafeVersion]
      rw [if_pos ⟨hne, hv⟩]
  · intro v hv
    have hno : ¬(v.data ≠ [] ∧ pyStartsWith v "1!" = true) := by
      rintro ⟨_, h2⟩
      rw [hv] at h2
      exact Bool.false_ne_true h2
    constructor
    · rw [setupPyDpkgSafeVersion, if_neg hno]
    · simp only [rpmSafeVersion]
      rw [if_neg hno]

/-- Witness for claim C8 amended, at a version with the epoch marker
and at one without it. -/
theorem epoch_stripping_amended_witness :
    (setupPyDpkgSafeVersion "1!20180101" = pyDropChars "1!20180101" 2 ∧
     rpmSafeVersion "1!20180101" = replaceHyphens (pyDropChars "1!20180101" 2)) ∧
    (setupPyDpkgSafeVersion "1.0-1" = "1.0-1" ∧
     rpmSafeVersion "1.0-1" = replaceHyphens "1.0-1") :=
  ⟨epoch_stripping_amended.1 "1!20180101" (by decide),
   epoch_stripping_amended.2 "1.0-1" (by decide)⟩

/-- Claim C9 (code bug evaluation): when no candidate patch.exe exists,
the search loop leaves the loop variable holding the last candidate
path rather than None, so the missing-utility guard cannot fire and
_ApplyPatches proceeds (returning True when there is no applicable
patch) instead of logging the error and returning False. -/
theorem apply_patches_missing_exe_bug :
    findPatchExeLoop (fun _ => false) none (commonPatchExePathValues "\\") =
      some "C:\\ProgramData\\chocolatey\\bin\\patch.exe" ∧
    applyPatches "\\" (fun _ => false) [] (fun _ => false) (fun _ => 0) = true := by decide

/-- Claim C10: the configure_make RPM and source-RPM Build operations
rename the downloaded source package to the name-version.tar.gz form
and rename it back before returning, on the success and the failure
path alike, leaving the tracked source package name unchanged; the
returned indicator is the rpmbuild exit status test. -/
theorem rpm_build_restores_source_package_name
    (downloadResult : Option String) (projectName projectVersion : String)
    (rpmbuildExitCode : Nat) (st : SourcePackageState)
    (h : st.sourcePackageName = downloadResult) :
    ((configureMakeRPMBuild downloadResult projectName projectVersion
        rpmbuildExitCode st).2 = st ∧
     (configureMakeSRPMBuild downloadResult projectName projectVersion
        rpmbuildExitCode st).2 = st) ∧
    ((configureMakeRPMBuild downloadResult projectName projectVersion
        rpmbuildExitCode st).1 =
      (downloadResult.isSome && (rpmbuildExitCode == 0))) ∧
    ((configureMakeSRPMBuild downloadResult projectName projectVersion
        rpmbuildExitCode st).1 =
      (downloadResult.isSome && (rpmbuildExitCode == 0))) := by
  obtain ⟨name⟩ := st
  cases downloadResult with
  | none => simp [configureMakeRPMBuild, configureMakeSRPMBuild]
  | some src =>
    simp only [SourcePackageState.mk.injEq] at h
    subst h
    simp [configureMakeRPMBuild, configureMakeSRPMBuild, renameSourcePackage]

/-- Witness for claim C10 at a concrete failing rpmbuild invocation. -/
theorem rpm_build_restores_source_package_name_witness :
    ((configureMakeRPMBuild (some "libfoo-alpha-20180101.tar.gz") "libfoo" "20180101"
        1 ⟨some "libfoo-alpha-20180101.tar.gz"⟩).2 =
          ⟨some "libfoo-alpha-20180101.tar.gz"⟩ ∧
     (configureMakeSRPMBuild (some "libfoo-alpha-20180101.tar.gz") "libfoo" "20180101"
        1 ⟨some "libfoo-alpha-20180101.tar.gz"⟩).2 =
          ⟨some "libfoo-alpha-20180101.tar.gz"⟩) ∧
    ((configureMakeRPMBuild (some "libfoo-alpha-20180101.tar.gz") "libfoo" "20180101"
        1 ⟨some "libfoo-alpha-20180101.tar.gz"⟩).1 =
      ((some "libfoo-alpha-20180101.tar.gz").isSome && ((1 : Nat) == 0))) ∧
    ((configureMakeSRPMBuild (some "libfoo-alpha-20180101.tar.gz") "libfoo" "20180101"
        1 ⟨some "libfoo-alpha-20180101.tar.gz"⟩).1 =
      ((some "libfoo-alpha-20180101.tar.gz").isSome && ((1 : Nat) == 0))) :=
  rpm_build_restores_source_package_name (some "libfoo-alpha-20180101.tar.gz")
    "libfoo" "20180101" 1 ⟨some "libfoo-alpha-20180101.tar.gz"⟩ rfl

end L2TDevTools
